import Mathlib

/-!
Verification of the `traced_result` Rust crate (src/lib.rs): a result type
whose error channel carries a call-site trace that grows on every propagation
via the customized try operator.

The shallow embedding follows src/lib.rs directly. Rust's implicit
caller-location capture (the track_caller attribute) is made explicit: every
function that captures a source location in Rust takes the captured
`Location` as an explicit argument here. `std::convert::Infallible` is
modelled by `Empty`, Rust `Vec` by `List` (with `push` as append at the
tail), and `std::result::Result` by the local two-variant `Result` type.
-/

namespace TracedRs

/-- Source location triple, modelling `std::panic::Location`: file, line,
column. -/
structure Location where
  file : String
  line : Nat
  col : Nat
deriving DecidableEq, Repr

/-- Models `TracedError<E>` (src/lib.rs lines 12-16): an error value plus the
ordered list of captured locations, oldest first. -/
structure TracedError (E : Type) where
  trace : List Location
  inner : E
deriving DecidableEq, Repr

/-- Models `TracedError::new` (lines 21-25): the caller location becomes the
sole entry of the trace. -/
def TracedError.new (loc : Location) (inner : E) : TracedError E :=
  ⟨[loc], inner⟩

/-- Models `TracedError::into_inner` (lines 28-31). -/
def TracedError.into_inner (e : TracedError E) : E :=
  e.inner

/-- Models `TracedError::split` (lines 38-41). -/
def TracedError.split (e : TracedError E) : E × List Location :=
  (e.inner, e.trace)

/-- Models `impl From<E> for TracedError<E>` (lines 44-49): delegates to
`new`, forwarding the caller location. -/
def TracedError.fromError (loc : Location) (value : E) : TracedError E :=
  TracedError.new loc value

/-- One rendered trace line of the `Display` impl (lines 56-62):
the `writeln!` format string `At (\x7bline\x7d:\x7bcol\x7d) in \x7bfile\x7d`
followed by the newline `writeln!` emits. -/
def locationLine (l : Location) : String :=
  "At (" ++ toString l.line ++ ":" ++ toString l.col ++ ") in " ++ l.file ++ "\n"

/-- Models `impl Display for TracedError` (lines 51-66): first the inner
error's own display output (`showE`, standing for `E`'s `Display`), then the
loop over `self.trace.iter().rev()` appending one line per record. -/
def TracedError.render (showE : E → String) (e : TracedError E) : String :=
  e.trace.reverse.foldl (fun acc l => acc ++ locationLine l) (showE e.inner)

/-- Models `TracedResult<T, E>` (lines 73-77). -/
inductive TracedResult (T E : Type) where
  | Ok : T → TracedResult T E
  | Err : TracedError E → TracedResult T E
deriving DecidableEq, Repr

/-- Models `std::result::Result<T, E>`. -/
inductive Result (T E : Type) where
  | Ok : T → Result T E
  | Err : E → Result T E
deriving DecidableEq, Repr

/-- Models `std::ops::ControlFlow<B, C>`. -/
inductive ControlFlow (B C : Type) where
  | Continue : C → ControlFlow B C
  | Break : B → ControlFlow B C
deriving DecidableEq, Repr

/-- Models `TracedResult::into_result` (lines 83-88). -/
def TracedResult.into_result : TracedResult T E → Result T (TracedError E)
  | .Ok ok => .Ok ok
  | .Err err => .Err err

/-- Models `TracedResult::discard_call_stack` (lines 91-96). -/
def TracedResult.discard_call_stack : TracedResult T E → Result T E
  | .Ok ok => .Ok ok
  | .Err err => .Err err.into_inner

/-- Models `TracedResult::is_ok` (lines 100-102). -/
def TracedResult.is_ok : TracedResult T E → Bool
  | .Ok _ => true
  | .Err _ => false

/-- Models `TracedResult::is_err` (lines 106-108). -/
def TracedResult.is_err : TracedResult T E → Bool
  | .Ok _ => false
  | .Err _ => true

/-- Models `TracedResult::map` (lines 111-116). -/
def TracedResult.map (f : T → U) : TracedResult T E → TracedResult U E
  | .Ok ok => .Ok (f ok)
  | .Err err => .Err err

/-- Models `TracedResult::map_err` (lines 120-128): the trace field of the
destructured error is reused unchanged. -/
def TracedResult.map_err (f : E → F) : TracedResult T E → TracedResult T F
  | .Ok ok => .Ok ok
  | .Err e => .Err ⟨e.trace, f e.inner⟩

/-- Models `Try::branch` for `TracedResult` (lines 216-226): `loc` is the
caller location captured by the track_caller attribute, i.e. the source
position of the try operator itself; on the error path it is pushed onto the
end of the trace. -/
def TracedResult.branch (loc : Location) :
    TracedResult T E → ControlFlow (TracedResult Empty E) T
  | .Ok output => .Continue output
  | .Err error => .Break (.Err ⟨error.trace ++ [loc], error.inner⟩)

/-- Models `Try::from_output` (lines 212-214). -/
def TracedResult.from_output (output : T) : TracedResult T E :=
  .Ok output

/-- Models `FromResidual::from_residual` (lines 230-238): `f` stands for the
`From<R> for E` conversion applied to the inner value; the trace is moved
across unchanged. The Rust `Ok` arm is `unreachable!()`; here that arm's
payload has type `Empty`, so it is eliminated. -/
def TracedResult.from_residual (f : R → E) :
    TracedResult Empty R → TracedResult T E
  | .Err e => .Err ⟨e.trace, f e.inner⟩
  | .Ok x => x.elim

/-- Models `impl From<Result<T, E>> for TracedResult<T, E>` (lines 242-248):
an `Err` payload is wrapped via `TracedError`'s `From<E>` at the caller
location `loc`. -/
def TracedResult.from_result (loc : Location) : Result T E → TracedResult T E
  | .Ok ok => .Ok ok
  | .Err err => .Err (TracedError.fromError loc err)

/-- Models `impl From<TracedResult<T, E>> for Result<T, TracedError<E>>`
(lines 251-255): it just calls `into_result`. -/
def Result.from_traced (value : TracedResult T E) : Result T (TracedError E) :=
  value.into_result

/-- Models the try operator on a plain `std::result::Result`: `Err` values
break out carried unchanged, with no location capture. -/
def Result.branch : Result T E → ControlFlow E T
  | .Ok v => .Continue v
  | .Err e => .Break e

/-- One short-circuit forwarding step of a failure at location `loc`,
expressed through `TracedResult.branch`, extracting the carried error. -/
def forwardOnce (loc : Location) (e : TracedError E) : TracedError E :=
  match (TracedResult.Err e : TracedResult Unit E).branch loc with
  | .Continue _ => e
  | .Break (.Ok v) => v.elim
  | .Break (.Err out) => out

/-- A failure forwarded through a chain of short-circuit propagations, one
per location in the list, in order. -/
def forwardChain (e : TracedError E) : List Location → TracedError E
  | [] => e
  | l :: ls => forwardChain (forwardOnce l e) ls

/-- The traces an observable `TracedError` can carry, mirroring exactly the
operations of src/lib.rs that create or change a trace: `construct` covers
`TracedError::new`, `From<E> for TracedError<E>` and the `Err` arm of
`From<Result<T, E>>` (all of which build a one-entry trace at the capture
location); `propagate` covers the push in `Try::branch`. All remaining
operations (`map_err`, `from_residual`, `into_result`, `split`) move the
trace unchanged. -/
inductive ReachableTrace : List Location → Prop where
  | construct (l : Location) : ReachableTrace [l]
  | propagate (t : List Location) (l : Location) :
      ReachableTrace t → ReachableTrace (t ++ [l])

/- Helper lemmas -/

theorem forwardOnce_eq (loc : Location) (e : TracedError E) :
    forwardOnce loc e = ⟨e.trace ++ [loc], e.inner⟩ :=
  rfl

theorem forwardChain_trace (ls : List Location) :
    ∀ e : TracedError E,
      forwardChain e ls = ⟨e.trace ++ ls, e.inner⟩ := by
  induction ls with
  | nil => intro e; simp [forwardChain]
  | cons l ls ih =>
      intro e
      simp [forwardChain, forwardOnce_eq, ih, List.append_assoc]

theorem reachable_ne_nil (t : List Location) (h : ReachableTrace t) :
    t ≠ [] := by
  induction h with
  | construct l => simp
  | propagate t l _ _ => simp

theorem string_append_assoc (a b c : String) :
    a ++ b ++ c = a ++ (b ++ c) := by
  cases a with
  | mk x =>
    cases b with
    | mk y =>
      cases c with
      | mk z =>
        show String.mk (x ++ y ++ z) = String.mk (x ++ (y ++ z))
        rw [List.append_assoc]

/-- Concatenation of the rendered lines of a list of records, one line per
record in list order. -/
def linesConcat : List Location → String
  | [] => ""
  | l :: ls => locationLine l ++ linesConcat ls

theorem foldl_lines (ls : List Location) :
    ∀ s : String,
      ls.foldl (fun acc l => acc ++ locationLine l) s = s ++ linesConcat ls := by
  induction ls with
  | nil =>
      intro s
      show s = s ++ ""
      cases s with
      | mk x =>
        show String.mk x = String.mk (x ++ [])
        rw [List.append_nil]
  | cons l ls ih =>
      intro s
      show List.foldl _ (s ++ locationLine l) ls = _
      rw [ih, string_append_assoc]
      rfl

/- Claim theorems -/

/-- C1: branch on an Ok value continues with the payload and touches no
trace; branch on an Err appends exactly the location of the try expression
itself to the end of the trace and breaks with the lengthened failure. -/
theorem c1_branch_protocol (T E : Type) (loc : Location) (v : T)
    (e : TracedError E) :
    (TracedResult.Ok (E := E) v).branch loc = .Continue v ∧
    (TracedResult.Err (T := T) e).branch loc =
      .Break (.Err ⟨e.trace ++ [loc], e.inner⟩) :=
  ⟨rfl, rfl⟩

/-- C2: every reachable trace is non-empty; an error constructed at `l0` and
forwarded through the N short-circuit sites `ls` carries the trace
`l0 :: ls` — length exactly 1 + N, construction site first, forwarding
sites following in chronological order, nothing reordered, deduplicated or
truncated, and the inner value untouched. -/
theorem c2_trace_invariant (E : Type) (t : List Location)
    (h : ReachableTrace t) (l0 : Location) (x : E) (ls : List Location) :
    t ≠ [] ∧
    (forwardChain (TracedError.new l0 x) ls).trace = l0 :: ls ∧
    (forwardChain (TracedError.new l0 x) ls).trace.length = 1 + ls.length ∧
    (forwardChain (TracedError.new l0 x) ls).inner = x := by
  refine ⟨reachable_ne_nil t h, ?_, ?_, ?_⟩ <;>
    simp [forwardChain_trace, TracedError.new, Nat.add_comm]

/-- Closed instance of C2 at a concrete construction site, two forwarding
sites and a concretely reachable trace. -/
theorem c2_trace_invariant_witness :
    ([⟨"lib.rs", 3, 1⟩] : List Location) ≠ [] ∧
    (forwardChain (TracedError.new ⟨"main.rs", 10, 5⟩ "Bad")
        [⟨"main.rs", 20, 9⟩, ⟨"main.rs", 30, 9⟩]).trace =
      [⟨"main.rs", 10, 5⟩, ⟨"main.rs", 20, 9⟩, ⟨"main.rs", 30, 9⟩] ∧
    (forwardChain (TracedError.new ⟨"main.rs", 10, 5⟩ "Bad")
        [⟨"main.rs", 20, 9⟩, ⟨"main.rs", 30, 9⟩]).trace.length = 1 + 2 ∧
    (forwardChain (TracedError.new ⟨"main.rs", 10, 5⟩ "Bad")
        [⟨"main.rs", 20, 9⟩, ⟨"main.rs", 30, 9⟩]).inner = "Bad" :=
  c2_trace_invariant String [⟨"lib.rs", 3, 1⟩]
    (ReachableTrace.construct ⟨"lib.rs", 3, 1⟩) ⟨"main.rs", 10, 5⟩ "Bad"
    [⟨"main.rs", 20, 9⟩, ⟨"main.rs", 30, 9⟩]

/-- C3 counterexample: the only conversion the library defines from a plain
result back into a traced one is the From impl at lines 242-248, and at a
concrete failure the round trip through it does not preserve the trace: the
resulting error's own trace is the one-entry trace of the conversion site,
not the original construction-site trace, and the result lives at error type
TracedError String rather than String. -/
theorem c3_roundtrip_counterexample :
    TracedResult.from_result ⟨"main.rs", 20, 9⟩
        ((TracedResult.Err (T := Unit)
          (TracedError.new ⟨"main.rs", 10, 5⟩ "boom")).into_result) =
      TracedResult.Err
        (TracedError.new ⟨"main.rs", 20, 9⟩
          (TracedError.new ⟨"main.rs", 10, 5⟩ "boom")) ∧
    [(⟨"main.rs", 20, 9⟩ : Location)] ≠ [⟨"main.rs", 10, 5⟩] := by
  constructor
  · rfl
  · decide

/-- C3 amended: the conversion to a plain result (lines 251-255 via
into_result) is lossless — Ok payload, Err inner value and full trace are
carried over exactly; converting that plain result back through the From
impl the library defines (lines 242-248) re-wraps the whole traced error as
the inner value of a fresh one-entry traced error at the conversion site, so
the original inner error and full trace survive intact one level down, but
the round trip lands in TracedResult T (TracedError E), not
TracedResult T E. -/
theorem c3_interop_lossless (T E : Type) (v : T) (e : TracedError E)
    (loc : Location) :
    Result.from_traced (TracedResult.Ok (E := E) v) = .Ok v ∧
    Result.from_traced (TracedResult.Err (T := T) e) = .Err e ∧
    TracedResult.from_result loc
        ((TracedResult.Err (T := T) e).into_result) =
      TracedResult.Err ⟨[loc], e⟩ :=
  ⟨rfl, rfl, rfl⟩

/-- C4: the widening step applies the conversion `f` to the inner error
value only; the trace list is moved across unchanged — no record added,
removed or modified. -/
theorem c4_widening_frame (T R E : Type) (f : R → E) (e : TracedError R) :
    TracedResult.from_residual (T := T) f (.Err e) = .Err ⟨e.trace, f e.inner⟩ :=
  rfl

/-- C5: map_err on a failure replaces the inner value by its image under `f`
and reuses the trace list itself; on a success it returns the same success
unchanged. -/
theorem c5_map_err_frame (T E F : Type) (f : E → F) (v : T)
    (e : TracedError E) :
    TracedResult.map_err f (TracedResult.Ok (E := E) v) = .Ok v ∧
    TracedResult.map_err f (TracedResult.Err (T := T) e) =
      .Err ⟨e.trace, f e.inner⟩ :=
  ⟨rfl, rfl⟩

/-- C6: the human-readable rendering is the inner error's display text
followed by one `locationLine` per trace record, most recent first and
construction site last (the reversed trace in list order). -/
theorem c6_render_layout (E : Type) (showE : E → String) (e : TracedError E) :
    e.render showE = showE e.inner ++ linesConcat e.trace.reverse := by
  show e.trace.reverse.foldl _ (showE e.inner) = _
  rw [foldl_lines]

/-- C7: into_result sends Ok to Ok and Err to Err with the error value — in
particular its trace — carried over identically, and the try operator of the
resulting plain result type propagates the error unchanged, performing no
further capture. -/
theorem c7_freeze_on_conversion (T E : Type) (v : T) (e : TracedError E) :
    (TracedResult.Ok (E := E) v).into_result = .Ok v ∧
    (TracedResult.Err (T := T) e).into_result = .Err e ∧
    Result.branch (Result.Err (T := T) e) = .Break e :=
  ⟨rfl, rfl, rfl⟩

/-- C8: map transforms the Ok payload and passes any failure through as the
very same value, trace included. -/
theorem c8_map_local (T U E : Type) (f : T → U) (v : T) (e : TracedError E) :
    TracedResult.map f (TracedResult.Ok (E := E) v) = .Ok (f v) ∧
    TracedResult.map f (TracedResult.Err (T := T) e) = .Err e :=
  ⟨rfl, rfl⟩

/-- C9: the implicit conversion from a plain error value is exactly
TracedError.new at the conversion site: it always yields the given inner
value and the one-record trace holding that site. -/
theorem c9_from_is_new (E : Type) (loc : Location) (v : E) :
    TracedError.fromError loc v = TracedError.new loc v ∧
    (TracedError.fromError loc v).inner = v ∧
    (TracedError.fromError loc v).trace = [loc] :=
  ⟨rfl, rfl, rfl⟩

/-- C10: every value of the residual type is a failure — the Ok variant
carries Empty and is uninhabited — so from_residual is total and always
returns the widened failure with the unchanged trace; the unreachable arm
can never execute. -/
theorem c10_residual_total (T R E : Type) (f : R → E)
    (r : TracedResult Empty R) :
    ∃ e, r = .Err e ∧
      TracedResult.from_residual (T := T) f r = .Err ⟨e.trace, f e.inner⟩ := by
  cases r with
  | Ok x => exact x.elim
  | Err e => exact ⟨e, rfl, rfl⟩

end TracedRs
